import Mathlib

/-!
Verification of the vtvtimes-dashboard sync pipeline.

This file gives a shallow embedding of the repository's data model and
operations (from `src/app.py`, `src/fetch_facebook_data_with_refresh.py`,
`src/refresh_facebook_token.py`, `src/save_facebook_data.py`,
`src/Old/facebook_api.py`) and proves the specification claims about them.
-/

/-! ## Realtime (GA4) model — `src/app.py` -/

/-- Coordinate/name record for one Vietnamese city, as in `VIETNAM_CITIES`
(`src/app.py` lines 34-49). -/
structure CityInfo where
  lat : ℚ
  lng : ℚ
  name : String
deriving DecidableEq, Repr

/-- The fixed 14-entry reference table `VIETNAM_CITIES` (`src/app.py` 34-49). -/
def VIETNAM_CITIES : List (String × CityInfo) :=
  [ ("Hanoi", ⟨21.0285, 105.8542, "Hà Nội"⟩)
  , ("Ho Chi Minh City", ⟨10.8231, 106.6297, "TP. Hồ Chí Minh"⟩)
  , ("Da Nang", ⟨16.0544, 108.2022, "Đà Nẵng"⟩)
  , ("Hai Phong", ⟨20.8449, 106.6881, "Hải Phòng"⟩)
  , ("Can Tho", ⟨10.0452, 105.7469, "Cần Thơ"⟩)
  , ("Bien Hoa", ⟨10.9470, 106.8196, "Biên Hòa"⟩)
  , ("Hue", ⟨16.4637, 107.5909, "Huế"⟩)
  , ("Nha Trang", ⟨12.2388, 109.1967, "Nha Trang"⟩)
  , ("Buon Ma Thuot", ⟨12.6675, 108.0378, "Buôn Ma Thuột"⟩)
  , ("Quy Nhon", ⟨13.7830, 109.2192, "Quy Nhơn"⟩)
  , ("Vung Tau", ⟨10.3460, 107.0843, "Vũng Tàu"⟩)
  , ("Thai Nguyen", ⟨21.5670, 105.8252, "Thái Nguyên"⟩)
  , ("Nam Dinh", ⟨20.4388, 106.1621, "Nam Định"⟩)
  , ("Vinh", ⟨18.6796, 105.6813, "Vinh"⟩) ]

/-- `VIETNAM_CITIES[city]` / `city in VIETNAM_CITIES` lookup. -/
def lookupCity (c : String) : Option CityInfo :=
  (VIETNAM_CITIES.find? (fun p => p.1 = c)).map Prod.snd

/-- A row of the `user_by_location` table (`src/app.py` 131-142). -/
structure LocationRow where
  province : String
  city : String
  latitude : ℚ
  longitude : ℚ
  active_users_5min : ℕ
  active_users_30min : ℕ
deriving DecidableEq, Repr

/-- A row of the `user_by_source` table (`src/app.py` 148-151). -/
structure SourceRow where
  source : String
  active_users : ℕ
deriving DecidableEq, Repr

/-- A row of the `views_by_page` table (`src/app.py` 157-160). -/
structure PageRow where
  page_title : String
  screen_name : String
  views : ℕ
deriving DecidableEq, Repr

/-- The provider response consumed by `save_to_database`: each report is the
ordered list of its rows, a row being a dimension value with a metric count
(`row.dimension_values[0].value`, `int(row.metric_values[0].value)`). -/
structure GA4Data where
  users_5min : List (String × ℕ)
  users_30min : List (String × ℕ)
  by_device : List (String × ℕ)
  by_page : List (String × ℕ)
deriving DecidableEq, Repr

/-- Lookup in a Python dict built by iterating rows and assigning
`d[city] = users`: the last row for a key wins. -/
def dictGet (rows : List (String × ℕ)) (k : String) : Option ℕ :=
  ((rows.filter (fun p => p.1 = k)).getLast?).map Prod.snd

/-- `all_cities = set(users_5min_dict.keys()) | set(users_30min_dict.keys())`
(`src/app.py` 126), modelled as a duplicate-free list of the keys. -/
def allCities (d : GA4Data) : List String :=
  (d.users_5min.map Prod.fst ++ d.users_30min.map Prod.fst).dedup

/-- The row inserted into `user_by_location` for one city, when the city is in
the reference table (`src/app.py` 128-142); `None` when it is dropped. -/
def mkLocationRow (d : GA4Data) (city : String) : Option LocationRow :=
  match lookupCity city with
  | some info =>
      some { province := info.name
           , city := city
           , latitude := info.lat
           , longitude := info.lng
           , active_users_5min := (dictGet d.users_5min city).getD 0
           , active_users_30min := (dictGet d.users_30min city).getD 0 }
  | none => none

/-- All rows inserted into `user_by_location` in one cycle. -/
def locationRows (d : GA4Data) : List LocationRow :=
  (allCities d).filterMap (mkLocationRow d)

/-- All rows inserted into `user_by_source` in one cycle (`src/app.py` 144-151). -/
def sourceRows (d : GA4Data) : List SourceRow :=
  d.by_device.map (fun p => ⟨p.1, p.2⟩)

/-- All rows inserted into `views_by_page` in one cycle (`src/app.py` 153-160);
`page_title` and `screen_name` both receive the page name. -/
def pageRows (d : GA4Data) : List PageRow :=
  d.by_page.map (fun p => ⟨p.1, p.1, p.2⟩)

/-- Committed contents of the three replace-style tables. -/
structure RealtimeDB where
  user_by_location : List LocationRow
  user_by_source : List SourceRow
  views_by_page : List PageRow
deriving DecidableEq, Repr

/-- One SQL statement issued by `save_to_database` inside its transaction. -/
inductive Op where
  | truncateAll
  | insertLocation (r : LocationRow)
  | insertSource (r : SourceRow)
  | insertPage (r : PageRow)
deriving DecidableEq, Repr

/-- Effect of one statement on the (pending) table contents. -/
def applyOp (db : RealtimeDB) : Op → RealtimeDB
  | .truncateAll => ⟨[], [], []⟩
  | .insertLocation r => { db with user_by_location := db.user_by_location ++ [r] }
  | .insertSource r => { db with user_by_source := db.user_by_source ++ [r] }
  | .insertPage r => { db with views_by_page := db.views_by_page ++ [r] }

/-- Effect of a statement sequence. -/
def applyOps (db : RealtimeDB) (ops : List Op) : RealtimeDB :=
  ops.foldl applyOp db

/-- The statement sequence of one `save_to_database` call (`src/app.py`
108-160): the `TRUNCATE` of the three tables followed by all inserts. -/
def saveOps (d : GA4Data) : List Op :=
  Op.truncateAll ::
    ((locationRows d).map Op.insertLocation ++
     (sourceRows d).map Op.insertSource ++
     (pageRows d).map Op.insertPage)

/-- A psycopg2 connection: the committed store plus the uncommitted pending
state of the open transaction. -/
structure PgConn where
  committed : RealtimeDB
  pending : RealtimeDB
deriving DecidableEq, Repr

/-- `cursor.execute(...)`: mutates only the pending transaction state. -/
def execOp (c : PgConn) (op : Op) : PgConn :=
  { c with pending := applyOp c.pending op }

/-- `conn.commit()`: publishes the pending state. -/
def pgCommit (c : PgConn) : PgConn :=
  { c with committed := c.pending }

/-- `conn.rollback()`: discards the pending state. -/
def pgRollback (c : PgConn) : PgConn :=
  { c with pending := c.committed }

/-- Execute the statements in order; `failAt = some k` means statement `k`
raises an exception (returning `false`), otherwise all succeed. -/
def runOps (c : PgConn) : List Op → Option ℕ → PgConn × Bool
  | [], _ => (c, true)
  | _ :: _, some 0 => (c, false)
  | op :: ops, some (k + 1) => runOps (execOp c op) ops (some k)
  | op :: ops, none => runOps (execOp c op) ops none

/-- `save_to_database` (`src/app.py` 103-171): run the truncate and all
inserts inside one try block; commit on success, roll back on any
exception. The returned value is the committed store afterwards. -/
def save_to_database (db : RealtimeDB) (d : GA4Data) (failAt : Option ℕ) : RealtimeDB :=
  match runOps ⟨db, db⟩ (saveOps d) failAt with
  | (c, true) => (pgCommit c).committed
  | (c, false) => (pgRollback c).committed

/-- One realtime cycle (`/api/refresh`, `auto_sync.sync_job`):
`fetch_ga4_realtime_data()` runs first and `save_to_database` is only
called when every fetch succeeded (`fetched = some d`). -/
def realtime_cycle (db : RealtimeDB) (fetched : Option GA4Data) (failAt : Option ℕ) :
    RealtimeDB :=
  match fetched with
  | none => db
  | some d => save_to_database db d failAt

theorem execOp_committed (c : PgConn) (op : Op) : (execOp c op).committed = c.committed := rfl

theorem runOps_committed (ops : List Op) (c : PgConn) (fa : Option ℕ) :
    ((runOps c ops fa).1).committed = c.committed := by
  induction ops generalizing c fa with
  | nil => rfl
  | cons op ops ih =>
    match fa with
    | none => simpa [runOps, execOp_committed] using ih (execOp c op) none
    | some 0 => rfl
    | some (k + 1) => simpa [runOps, execOp_committed] using ih (execOp c op) (some k)

theorem runOps_fail (ops : List Op) (c : PgConn) (k : ℕ) (hk : k < ops.length) :
    (runOps c ops (some k)).2 = false := by
  induction ops generalizing c k with
  | nil => simp at hk
  | cons op ops ih =>
    match k with
    | 0 => rfl
    | k + 1 =>
      have : k < ops.length := by simpa using hk
      simpa [runOps] using ih (execOp c op) k this

theorem runOps_none (ops : List Op) (c : PgConn) :
    runOps c ops none = (ops.foldl execOp c, true) := by
  induction ops generalizing c with
  | nil => rfl
  | cons op ops ih => simpa [runOps, List.foldl_cons] using ih (execOp c op)

theorem foldl_execOp_pending (ops : List Op) (c : PgConn) :
    (ops.foldl execOp c).pending = applyOps c.pending ops := by
  induction ops generalizing c with
  | nil => rfl
  | cons op ops ih => simpa [applyOps, execOp] using ih (execOp c op)

theorem save_none_eq_applyOps (db : RealtimeDB) (d : GA4Data) :
    save_to_database db d none = applyOps db (saveOps d) := by
  unfold save_to_database
  rw [runOps_none]
  simpa [pgCommit] using foldl_execOp_pending (saveOps d) ⟨db, db⟩

theorem applyOps_append (db : RealtimeDB) (xs ys : List Op) :
    applyOps db (xs ++ ys) = applyOps (applyOps db xs) ys := by
  simp [applyOps, List.foldl_append]

theorem applyOps_insertLocation (ls : List LocationRow) (db : RealtimeDB) :
    applyOps db (ls.map Op.insertLocation) =
      { db with user_by_location := db.user_by_location ++ ls } := by
  induction ls generalizing db with
  | nil => simp [applyOps]
  | cons a ls ih =>
    simp only [List.map_cons, applyOps, List.foldl_cons]
    rw [show applyOp db (Op.insertLocation a) =
      { db with user_by_location := db.user_by_location ++ [a] } from rfl]
    simpa [applyOps] using ih { db with user_by_location := db.user_by_location ++ [a] }

theorem applyOps_insertSource (ls : List SourceRow) (db : RealtimeDB) :
    applyOps db (ls.map Op.insertSource) =
      { db with user_by_source := db.user_by_source ++ ls } := by
  induction ls generalizing db with
  | nil => simp [applyOps]
  | cons a ls ih =>
    simp only [List.map_cons, applyOps, List.foldl_cons]
    rw [show applyOp db (Op.insertSource a) =
      { db with user_by_source := db.user_by_source ++ [a] } from rfl]
    simpa [applyOps] using ih { db with user_by_source := db.user_by_source ++ [a] }

theorem applyOps_insertPage (ls : List PageRow) (db : RealtimeDB) :
    applyOps db (ls.map Op.insertPage) =
      { db with views_by_page := db.views_by_page ++ ls } := by
  induction ls generalizing db with
  | nil => simp [applyOps]
  | cons a ls ih =>
    simp only [List.map_cons, applyOps, List.foldl_cons]
    rw [show applyOp db (Op.insertPage a) =
      { db with views_by_page := db.views_by_page ++ [a] } from rfl]
    simpa [applyOps] using ih { db with views_by_page := db.views_by_page ++ [a] }

theorem save_none_snapshot (db : RealtimeDB) (d : GA4Data) :
    save_to_database db d none = ⟨locationRows d, sourceRows d, pageRows d⟩ := by
  rw [save_none_eq_applyOps]
  unfold saveOps
  rw [show applyOps db (Op.truncateAll ::
        ((locationRows d).map Op.insertLocation ++
         (sourceRows d).map Op.insertSource ++
         (pageRows d).map Op.insertPage)) =
      applyOps ⟨[], [], []⟩
        ((locationRows d).map Op.insertLocation ++
         ((sourceRows d).map Op.insertSource ++
          (pageRows d).map Op.insertPage)) by
    simp [applyOps, List.foldl_cons, applyOp, List.append_assoc]]
  rw [applyOps_append, applyOps_insertLocation, applyOps_append,
      applyOps_insertSource, applyOps_insertPage]
  simp

theorem locationRows_cities_filter (d : GA4Data) (l : List String) :
    (l.filterMap (mkLocationRow d)).map LocationRow.city =
      l.filter (fun c => (lookupCity c).isSome) := by
  induction l with
  | nil => rfl
  | cons a l ih =>
    cases h : lookupCity a with
    | none => simpa [mkLocationRow, h] using ih
    | some info => simpa [mkLocationRow, h] using ih

/-- Input of the C1 example: a provider response with a "Hanoi" row of 42
users and a "Paris" row of 9 users in the 5-minute window. -/
def exampleData : GA4Data := ⟨[("Hanoi", 42), ("Paris", 9)], [], [], []⟩

/-- The row the C1 example expects for "Hanoi". -/
def hanoiRow : LocationRow :=
  ⟨"Hà Nội", "Hanoi", 21.0285, 105.8542, 42, 0⟩

/-- C1: the realtime store write inserts into `user_by_location` exactly the
provider cities found in the 14-entry `VIETNAM_CITIES` table, with province
name, latitude and longitude taken from that table; cities outside the table
("Paris") are dropped, and a "Hanoi" row with 42 users becomes
`{province := "Hà Nội", city := "Hanoi", lat := 21.0285, lng := 105.8542,
active_users_5min := 42}`. -/
theorem referential_filter_c1 :
    (∀ (d : GA4Data) (r : LocationRow), r ∈ locationRows d →
       ∃ info, lookupCity r.city = some info ∧ r.province = info.name ∧
         r.latitude = info.lat ∧ r.longitude = info.lng) ∧
    (∀ d : GA4Data, (locationRows d).map LocationRow.city =
       (allCities d).filter (fun c => (lookupCity c).isSome)) ∧
    VIETNAM_CITIES.length = 14 ∧
    locationRows exampleData = [hanoiRow] := by
  refine ⟨?_, ?_, by decide, by rfl⟩
  · intro d r hr
    rcases List.mem_filterMap.1 hr with ⟨c, _, hc⟩
    unfold mkLocationRow at hc
    cases h : lookupCity c with
    | none => rw [h] at hc; cases hc
    | some info =>
      rw [h] at hc
      injection hc with hc
      subst hc
      exact ⟨info, by simpa using h, rfl, rfl, rfl⟩
  · intro d
    exact locationRows_cities_filter d (allCities d)

/-- Witness for C1 at the concrete example input. -/
theorem referential_filter_c1_witness :
    ∃ info, lookupCity hanoiRow.city = some info ∧ hanoiRow.province = info.name ∧
      hanoiRow.latitude = info.lat ∧ hanoiRow.longitude = info.lng :=
  referential_filter_c1.1 exampleData hanoiRow (by rw [referential_filter_c1.2.2.2]; simp)

/-- C2: the truncate of `user_by_location`, `user_by_source` and
`views_by_page` and all subsequent inserts form one atomic transaction: a
failure at any statement rolls the whole cycle back, leaving every table with
exactly its pre-cycle contents; and when any provider fetch fails the store is
not touched at all. -/
theorem atomic_replace_c2 :
    (∀ (db : RealtimeDB) (d : GA4Data) (k : ℕ), k < (saveOps d).length →
       save_to_database db d (some k) = db) ∧
    (∀ (db : RealtimeDB) (failAt : Option ℕ), realtime_cycle db none failAt = db) := by
  constructor
  · intro db d k hk
    unfold save_to_database
    have h2 := runOps_fail (saveOps d) ⟨db, db⟩ k hk
    have h1 := runOps_committed (saveOps d) ⟨db, db⟩ (some k)
    rcases hr : runOps ⟨db, db⟩ (saveOps d) (some k) with ⟨c, b⟩
    rw [hr] at h1 h2
    simp only at h1 h2
    subst h2
    simpa [pgRollback] using h1
  · intro db failAt
    rfl

/-- Witness for C2: a failure right after the truncate (statement 1) leaves
the concrete pre-cycle table contents untouched. -/
theorem atomic_replace_c2_witness :
    (1 < (saveOps exampleData).length ∧
      save_to_database ⟨[hanoiRow], [⟨"desktop", 3⟩], []⟩ exampleData (some 1) =
        ⟨[hanoiRow], [⟨"desktop", 3⟩], []⟩) :=
  have hlen : (saveOps exampleData).length = 2 := rfl
  ⟨by omega, atomic_replace_c2.1 _ exampleData 1 (by omega)⟩

/-- C9: running the realtime store write twice with the same provider response
gives the same replace-table contents as running it once, and the result is
independent of whatever the tables contained before: each table holds exactly
the rows derived from the response. -/
theorem idempotent_replace_c9 :
    ∀ (db1 db2 : RealtimeDB) (d : GA4Data),
      save_to_database (save_to_database db1 d none) d none = save_to_database db2 d none ∧
      save_to_database db2 d none = ⟨locationRows d, sourceRows d, pageRows d⟩ := by
  intro db1 db2 d
  rw [save_none_snapshot, save_none_snapshot]
  exact ⟨rfl, rfl⟩

/-! ## Daily page insights — `src/fetch_facebook_data_with_refresh.py` 150-168

`facebook_page_insights_daily` rows are written with
`INSERT ... ON CONFLICT (metric, date) DO UPDATE SET value = EXCLUDED.value`. -/

/-- A row of `facebook_page_insights_daily`. -/
structure DailyRow where
  metric : String
  report_type : String
  date : String
  value : ℤ
deriving DecidableEq, Repr

/-- The `(metric, date)` natural key of a daily-insights row. -/
def dailyKey (x : DailyRow) : String × String :=
  (x.metric, x.date)

/-- Whether `x` conflicts with the incoming row `r` on `(metric, date)`. -/
def dailyConflict (r x : DailyRow) : Bool :=
  x.metric = r.metric && x.date = r.date

/-- `DO UPDATE SET value = EXCLUDED.value` applied to a row: only `value`
is overwritten, and only on a key conflict. -/
def updDaily (r x : DailyRow) : DailyRow :=
  if dailyConflict r x then { x with value := r.value } else x

/-- `INSERT ... ON CONFLICT (metric, date) DO UPDATE SET value = ...`:
update the conflicting row if present, else append the new row. -/
def upsertDaily (t : List DailyRow) (r : DailyRow) : List DailyRow :=
  if t.any (dailyConflict r) then t.map (updDaily r) else t ++ [r]

theorem dailyKey_updDaily (r x : DailyRow) : dailyKey (updDaily r x) = dailyKey x := by
  unfold updDaily
  cases h : dailyConflict r x <;> simp [dailyKey]

theorem dailyKeys_map_updDaily (r : DailyRow) (t : List DailyRow) :
    (t.map (updDaily r)).map dailyKey = t.map dailyKey := by
  induction t with
  | nil => rfl
  | cons a t ih => simp [dailyKey_updDaily, ih]

theorem dailyConflict_iff (r x : DailyRow) :
    dailyConflict r x = true ↔ dailyKey x = dailyKey r := by
  simp [dailyConflict, dailyKey, Prod.ext_iff]

theorem nodup_upsertDaily (t : List DailyRow) (r : DailyRow)
    (h : (t.map dailyKey).Nodup) : ((upsertDaily t r).map dailyKey).Nodup := by
  unfold upsertDaily
  cases hc : t.any (dailyConflict r) with
  | true =>
    rw [if_pos rfl, dailyKeys_map_updDaily]
    exact h
  | false =>
    rw [if_neg (by simp)]
    have hnot : ∀ x ∈ t, dailyKey x ≠ dailyKey r := by
      intro x hx
      have := List.any_eq_false.1 hc x hx
      simpa [dailyConflict_iff] using this
    simp only [List.map_append, List.map_cons, List.map_nil]
    rw [List.nodup_append]
    refine ⟨h, List.nodup_singleton _, ?_⟩
    intro k hk1 hk2
    rcases List.mem_map.1 hk1 with ⟨x, hx, rfl⟩
    simp only [List.mem_singleton] at hk2
    exact hnot x hx hk2

theorem nodup_foldl_upsertDaily (rs : List DailyRow) (t : List DailyRow)
    (h : (t.map dailyKey).Nodup) :
    ((List.foldl upsertDaily t rs).map dailyKey).Nodup := by
  induction rs generalizing t with
  | nil => simpa using h
  | cons r rs ih => simpa using ih (upsertDaily t r) (nodup_upsertDaily t r h)

/-- C3: `(metric, date)` is a unique key of the daily-insights table — any
sequence of upserts starting from the empty table yields pairwise distinct
keys — and a conflicting insert overwrites the value: inserting
`(page_views_total, 2025-01-01, 10)` and then `(page_views_total, 2025-01-01,
15)` leaves exactly one row for that key, with value 15, while inserting the
same metric under date `2025-01-02` leaves both rows present. -/
theorem upsert_merge_c3 :
    (∀ rs : List DailyRow, ((List.foldl upsertDaily [] rs).map dailyKey).Nodup) ∧
    upsertDaily (upsertDaily [] ⟨"page_views_total", "Visits", "2025-01-01", 10⟩)
        ⟨"page_views_total", "Visits", "2025-01-01", 15⟩ =
      [⟨"page_views_total", "Visits", "2025-01-01", 15⟩] ∧
    upsertDaily (upsertDaily [] ⟨"page_views_total", "Visits", "2025-01-01", 10⟩)
        ⟨"page_views_total", "Visits", "2025-01-02", 15⟩ =
      [⟨"page_views_total", "Visits", "2025-01-01", 10⟩,
       ⟨"page_views_total", "Visits", "2025-01-02", 15⟩] := by
  refine ⟨fun rs => nodup_foldl_upsertDaily rs [] (by simp), by rfl, by rfl⟩

/-! ## Post insights — `src/Old/facebook_api.py` 288-337 and
`src/save_facebook_data.py` 139-186 -/

/-- A raw per-post insight value as returned by the provider: a plain number,
or (for `post_reactions_by_type_total`) a breakdown dict by reaction type. -/
inductive IVal where
  | num (n : ℤ)
  | byType (m : List (String × ℤ))
deriving DecidableEq, Repr

/-- `sum(value.values()) if isinstance(value, dict) else 0`
(`src/Old/facebook_api.py` 312-316). -/
def sumIVal : IVal → ℤ
  | .byType m => (m.map Prod.snd).sum
  | .num _ => 0

/-- One entry of a raw post's `insights` list. -/
structure RawInsight where
  iname : String
  values : List IVal
deriving DecidableEq, Repr

/-- A raw post from the provider, with the fields
`format_posts_for_database` reads. -/
structure RawPost where
  id : String
  message : String
  ptype : String
  created_time : String
  comments : ℤ
  shares : ℤ
  insights : List RawInsight
deriving DecidableEq, Repr

/-- The `insights_dict` entry contributed by one insight
(`src/Old/facebook_api.py` 303-318): skipped when `values` is empty;
reactions are summed under the key `post_reactions`; every other metric is
stored raw under its own name. -/
def insightEntry (i : RawInsight) : Option (String × IVal) :=
  match i.values with
  | [] => none
  | v :: _ =>
    if i.iname = "post_reactions_by_type_total" then
      some ("post_reactions", .num (sumIVal v))
    else
      some (i.iname, v)

/-- The `insights_dict` of one post, in assignment order (a later assignment
to the same key overwrites the earlier one, looked up via `idictGet`). -/
def buildInsightsDict (l : List RawInsight) : List (String × IVal) :=
  l.filterMap insightEntry

/-- `insights_dict.get(k, 0)`: last assignment wins, default `0`. -/
def idictGet (d : List (String × IVal)) (k : String) : IVal :=
  match (d.filter (fun p => p.1 = k)).getLast? with
  | some p => p.2
  | none => .num 0

/-- A row of `facebook_post_insights` (`src/save_facebook_data.py` 155-163). -/
structure PostRow where
  post_id : String
  post_message : String
  post_type : String
  created_time : String
  post_impressions : IVal
  post_impressions_unique : IVal
  post_engaged_users : IVal
  post_reactions : IVal
  post_comments : ℤ
  post_shares : ℤ
  post_clicks : IVal
  video_views : ℤ
deriving DecidableEq, Repr

/-- `format_posts_for_database` applied to one post
(`src/Old/facebook_api.py` 300-335): message truncated to 500 characters,
metric fields from `insights_dict` with default 0, and `video_views`
hard-coded to `0`. -/
def format_post (p : RawPost) : PostRow :=
  let d := buildInsightsDict p.insights
  { post_id := p.id
  , post_message := p.message.take 500
  , post_type := p.ptype
  , created_time := p.created_time
  , post_impressions := idictGet d "post_impressions"
  , post_impressions_unique := idictGet d "post_impressions_unique"
  , post_engaged_users := idictGet d "post_engaged_users"
  , post_reactions := idictGet d "post_reactions"
  , post_comments := p.comments
  , post_shares := p.shares
  , post_clicks := idictGet d "post_clicks"
  , video_views := 0 }

/-- `format_posts_for_database` (`src/Old/facebook_api.py` 288-337). -/
def format_posts_for_database (l : List RawPost) : List PostRow :=
  l.map format_post

/-- `DO UPDATE SET ...` of `save_post_insights`
(`src/save_facebook_data.py` 164-174): on a `post_id` conflict every measured
field is overwritten; `post_message`, `post_type` and `created_time` are not. -/
def updPost (r x : PostRow) : PostRow :=
  if x.post_id = r.post_id then
    { x with post_impressions := r.post_impressions
           , post_impressions_unique := r.post_impressions_unique
           , post_engaged_users := r.post_engaged_users
           , post_reactions := r.post_reactions
           , post_comments := r.post_comments
           , post_shares := r.post_shares
           , post_clicks := r.post_clicks
           , video_views := r.video_views }
  else x

/-- `INSERT ... ON CONFLICT (post_id) DO UPDATE`
(`src/save_facebook_data.py` 155-175). -/
def upsertPost (t : List PostRow) (r : PostRow) : List PostRow :=
  if t.any (fun x => x.post_id = r.post_id) then t.map (updPost r) else t ++ [r]

theorem updPost_post_id (r x : PostRow) : (updPost r x).post_id = x.post_id := by
  unfold updPost
  split <;> rfl

theorem updPost_of_ne (r x : PostRow) (h : x.post_id ≠ r.post_id) : updPost r x = x := by
  unfold updPost
  rw [if_neg h]

theorem mem_upsertPost_of_id_ne (t : List PostRow) (r x : PostRow)
    (h : x.post_id ≠ r.post_id) : x ∈ upsertPost t r ↔ x ∈ t := by
  unfold upsertPost
  split
  · constructor
    · intro hx
      rcases List.mem_map.1 hx with ⟨y, hy, hyx⟩
      by_cases hid : y.post_id = r.post_id
      · exfalso
        apply h
        rw [← hyx, updPost_post_id, hid]
      · rw [updPost_of_ne r y hid] at hyx
        exact hyx ▸ hy

    · intro hx
      exact List.mem_map.2 ⟨x, hx, updPost_of_ne r x h⟩
  · simp only [List.mem_append, List.mem_singleton]
    constructor
    · rintro (hx | rfl)
      · exact hx
      · exact absurd rfl h
    · exact Or.inl

theorem mem_foldl_upsertPost_of_id_not_mem (rs : List PostRow) (t : List PostRow)
    (x : PostRow) (h : ∀ r ∈ rs, x.post_id ≠ r.post_id) :
    x ∈ List.foldl upsertPost t rs ↔ x ∈ t := by
  induction rs generalizing t with
  | nil => simp
  | cons r rs ih =>
    simp only [List.foldl_cons]
    rw [ih (upsertPost t r) (fun r' hr' => h r' (List.mem_cons_of_mem r hr'))]
    exact mem_upsertPost_of_id_ne t r x (h r (List.mem_cons_self r rs))

theorem updDaily_of_ne (r x : DailyRow) (h : dailyKey x ≠ dailyKey r) : updDaily r x = x := by
  unfold updDaily
  rw [if_neg]
  intro hc
  exact h ((dailyConflict_iff r x).1 hc)

theorem mem_upsertDaily_of_key_ne (t : List DailyRow) (r x : DailyRow)
    (h : dailyKey x ≠ dailyKey r) : x ∈ upsertDaily t r ↔ x ∈ t := by
  unfold upsertDaily
  split
  · constructor
    · intro hx
      rcases List.mem_map.1 hx with ⟨y, hy, hyx⟩
      by_cases hky : dailyKey y = dailyKey r
      · exfalso
        apply h
        rw [← hyx, dailyKey_updDaily, hky]
      · rw [updDaily_of_ne r y hky] at hyx
        exact hyx ▸ hy
    · intro hx
      exact List.mem_map.2 ⟨x, hx, updDaily_of_ne r x h⟩
  · simp only [List.mem_append, List.mem_singleton]
    constructor
    · rintro (hx | rfl)
      · exact hx
      · exact absurd rfl h
    · exact Or.inl

theorem mem_foldl_upsertDaily_of_key_not_mem (rs : List DailyRow) (t : List DailyRow)
    (x : DailyRow) (h : ∀ r ∈ rs, dailyKey x ≠ dailyKey r) :
    x ∈ List.foldl upsertDaily t rs ↔ x ∈ t := by
  induction rs generalizing t with
  | nil => simp
  | cons r rs ih =>
    simp only [List.foldl_cons]
    rw [ih (upsertDaily t r) (fun r' hr' => h r' (List.mem_cons_of_mem r hr'))]
    exact mem_upsertDaily_of_key_ne t r x (h r (List.mem_cons_self r rs))

/-- C4: upsert-style writes leave every row whose natural key does not occur
among the written records untouched — for daily insights (key
`(metric, date)`) and post insights (key `post_id`) alike, a row keyed
outside the batch is in the table after the write exactly when it was in the
table before, unchanged. -/
theorem upsert_frame_c4 :
    (∀ (t rs : List DailyRow) (x : DailyRow),
        (∀ r ∈ rs, dailyKey x ≠ dailyKey r) →
        (x ∈ List.foldl upsertDaily t rs ↔ x ∈ t)) ∧
    (∀ (t rs : List PostRow) (x : PostRow),
        (∀ r ∈ rs, x.post_id ≠ r.post_id) →
        (x ∈ List.foldl upsertPost t rs ↔ x ∈ t)) :=
  ⟨fun t rs x h => mem_foldl_upsertDaily_of_key_not_mem rs t x h,
   fun t rs x h => mem_foldl_upsertPost_of_id_not_mem rs t x h⟩

/-- Witness for C4: an old daily row for `2024-12-31` survives a write that
only touches `2025-01-01`. -/
theorem upsert_frame_c4_witness :
    ⟨"page_views_total", "Visits", "2024-12-31", 3⟩ ∈
      List.foldl upsertDaily [⟨"page_views_total", "Visits", "2024-12-31", 3⟩]
        [⟨"page_views_total", "Visits", "2025-01-01", 10⟩] :=
  (upsert_frame_c4.1 [⟨"page_views_total", "Visits", "2024-12-31", 3⟩]
    [⟨"page_views_total", "Visits", "2025-01-01", 10⟩]
    ⟨"page_views_total", "Visits", "2024-12-31", 3⟩ (by decide)).mpr (by decide)

theorem video_views_upsertPost (t : List PostRow) (r x : PostRow)
    (hx : x ∈ upsertPost t r) (hid : x.post_id = r.post_id) :
    x.video_views = r.video_views := by
  unfold upsertPost at hx
  by_cases hc : t.any (fun x => x.post_id = r.post_id)
  · rw [if_pos hc] at hx
    rcases List.mem_map.1 hx with ⟨y, _, hyx⟩
    by_cases hky : y.post_id = r.post_id
    · rw [← hyx]
      unfold updPost
      rw [if_pos hky]
    · rw [updPost_of_ne r y hky] at hyx
      exact absurd (hyx ▸ hid) hky
  · rw [if_neg hc] at hx
    rcases List.mem_append.1 hx with hx | hx
    · exfalso
      have hfalse : t.any (fun x => x.post_id = r.post_id) = false := by
        simpa using hc
      have := List.any_eq_false.1 hfalse x hx
      simp only [decide_eq_true_eq] at this
      exact this hid
    · rw [List.mem_singleton.1 hx]

theorem video_views_foldl_upsertPost (rs : List PostRow) :
    ∀ (t : List PostRow) (x : PostRow),
      (∀ r ∈ rs, r.video_views = 0) →
      x ∈ List.foldl upsertPost t rs →
      x.post_id ∈ rs.map PostRow.post_id → x.video_views = 0 := by
  induction rs with
  | nil =>
    intro t x _ _ hid
    simp at hid
  | cons r rs ih =>
    intro t x hall hx hid
    simp only [List.foldl_cons] at hx
    by_cases hmem : x.post_id ∈ rs.map PostRow.post_id
    · exact ih (upsertPost t r) x (fun r' hr' => hall r' (List.mem_cons_of_mem r hr')) hx hmem
    · have hid' : x.post_id = r.post_id := by
        simp only [List.map_cons, List.mem_cons] at hid
        rcases hid with h | h
        · exact h
        · exact absurd h hmem
      have hnotin : ∀ r' ∈ rs, x.post_id ≠ r'.post_id := by
        intro r' hr' heq
        exact hmem (List.mem_map.2 ⟨r', hr', heq.symm⟩)
      have hx' : x ∈ upsertPost t r :=
        (mem_foldl_upsertPost_of_id_not_mem rs (upsertPost t r) x hnotin).1 hx
      rw [video_views_upsertPost t r x hx' hid']
      exact hall r (List.mem_cons_self r rs)

theorem format_posts_id_map (posts : List RawPost) :
    (format_posts_for_database posts).map PostRow.post_id = posts.map RawPost.id := by
  unfold format_posts_for_database
  rw [List.map_map]
  rfl

/-- C10 (implicit): the post normalizer hard-codes `video_views` to zero,
and because the upsert overwrites `video_views` on conflict, every row of
`facebook_post_insights` whose post occurs in the current response ends the
cycle with `video_views = 0`, whatever the provider reported. -/
theorem video_views_zero_c10 :
    (∀ p : RawPost, (format_post p).video_views = 0) ∧
    (∀ (posts : List RawPost) (t : List PostRow) (x : PostRow),
        x ∈ List.foldl upsertPost t (format_posts_for_database posts) →
        x.post_id ∈ posts.map RawPost.id →
        x.video_views = 0) := by
  refine ⟨fun p => rfl, ?_⟩
  intro posts t x hx hid
  refine video_views_foldl_upsertPost (format_posts_for_database posts) t x ?_ hx ?_

  · intro r hr
    rcases List.mem_map.1 hr with ⟨p, _, rfl⟩
    rfl
  · rw [format_posts_id_map]
    exact hid

/-- Raw post used for the C10 witness. -/
def videoPost : RawPost :=
  ⟨"p1", "hello", "status", "2025-01-01T00:00:00+0000", 3, 4,
    [⟨"post_impressions", [.num 10]⟩,
     ⟨"post_reactions_by_type_total", [.byType [("like", 2), ("love", 1)]]⟩]⟩

/-- Pre-existing table row for the C10 witness, with a nonzero
`video_views` recorded earlier. -/
def videoOldRow : PostRow :=
  ⟨"p1", "old", "status", "2024-12-01T00:00:00+0000",
    .num 1, .num 1, .num 1, .num 1, 1, 1, .num 1, 7⟩

/-- The row as it stands after re-syncing `videoPost` over `videoOldRow`. -/
def videoNewRow : PostRow :=
  ⟨"p1", "old", "status", "2024-12-01T00:00:00+0000",
    .num 10, .num 0, .num 0, .num 3, 3, 4, .num 0, 0⟩

/-- Witness for C10: after one social cycle the re-synced post's stored
`video_views` is reset to 0 even though it was 7 before. -/
theorem video_views_zero_c10_witness :
    videoNewRow ∈ List.foldl upsertPost [videoOldRow] (format_posts_for_database [videoPost]) ∧
      videoNewRow.video_views = 0 :=
  ⟨by decide, video_views_zero_c10.2 [videoPost] [videoOldRow] videoNewRow
    (by decide) (by decide)⟩

/-! ## Token lifecycle — `src/refresh_facebook_token.py` and
`src/fetch_facebook_data_with_refresh.py` 15-69

The environment (the `.env` tokens, the provider's introspection, exchange
and page-listing endpoints, and the wall clock) is modelled as explicit
inputs; the functions below are translated from the Python control flow. -/

/-- Result of the `debug_token` introspection (`verify_token`): the fields
the code reads, `is_valid` and `expires_at` (0 = never expires). -/
structure TokenInfo where
  is_valid : Bool
  expires_at : ℤ
deriving DecidableEq, Repr

/-- The world the token manager interacts with. `page_token` and
`user_token` are the current `.env` values; `verify`, `exchange` and `pages`
are the provider endpoints (`none` = request failed / token rejected /
page id not found); `now` is `datetime.now().timestamp()`. -/
structure FbEnv where
  page_token : Option String
  user_token : Option String
  verify : String → Option TokenInfo
  exchange : String → Option String
  pages : Option String → Option String
  now : ℤ

/-- Step 1 of `FacebookTokenManager.refresh_tokens`
(`src/refresh_facebook_token.py` 123-148): verify the user token; an invalid
or unverifiable user token is terminal (`none`); when fewer than 7 days
remain, attempt the long-lived exchange, but on exchange failure continue
with the current user token. Returns the user token to use in step 2. -/
def refresh_step1 (e : FbEnv) : Option (Option String) :=
  match e.user_token with
  | none => some none
  | some ut =>
    match e.verify ut with
    | some info =>
      if info.is_valid then
        if ((info.expires_at - e.now : ℤ) : ℚ) / 86400 < 7 then
          match e.exchange ut with
          | some lt => some (some lt)
          | none => some (some ut)
        else some (some ut)
      else none
    | none => none

/-- `refresh_tokens` (`src/refresh_facebook_token.py` 115-175) together with
its effect on the `.env` file: the success flag, and the page token stored in
`.env` afterwards (updated only when a page token was obtained). -/
def refresh_tokens_run (e : FbEnv) : Bool × Option String :=
  match refresh_step1 e with
  | none => (false, e.page_token)
  | some ut =>
    match e.pages ut with
    | some pt => (true, some pt)
    | none => (false, e.page_token)

/-- The boolean result of `refresh_tokens`. -/
def refresh_tokens (e : FbEnv) : Bool :=
  (refresh_tokens_run e).1

/-- The refresh section of `get_valid_page_token`
(`src/fetch_facebook_data_with_refresh.py` 45-69): run the refresh, reload
the token from `.env`, verify it, and return it only if introspection says
it is valid; every failure yields `none`. -/
def refresh_branch (e : FbEnv) : Option String :=
  match refresh_tokens_run e with
  | (true, some nt) =>
    match e.verify nt with
    | some info => if info.is_valid then some nt else none
    | none => none
  | (true, none) => none
  | (false, _) => none

/-- `get_valid_page_token` (`src/fetch_facebook_data_with_refresh.py`
15-69): keep the current page token when it verifies as valid and either
never expires or has more than an hour left; otherwise refresh. -/
def get_valid_page_token (e : FbEnv) : Option String :=
  match e.page_token with
  | some ct =>
    match e.verify ct with
    | some info =>
      if info.is_valid then
        if info.expires_at = 0 then some ct
        else if info.expires_at - e.now > 3600 then some ct
        else refresh_branch e
      else refresh_branch e
    | none => refresh_branch e
  | none => refresh_branch e

/-- The spec's condition for returning the current token unchanged, written
from §4.3: introspection reports the token valid, and either
`expires_at == 0` (never expires) or more than 1 hour remains. -/
def specUsable (e : FbEnv) : Bool :=
  match e.page_token with
  | none => false
  | some t =>
    match e.verify t with
    | none => false
    | some i => i.is_valid && (decide (i.expires_at = 0) || decide (e.now + 3600 < i.expires_at))

/-- C5: `get_valid_page_token` returns the current page token unchanged
exactly when introspection reports it valid and either it never expires or
more than one hour remains; in every other case it runs the refresh chain. -/
theorem refresh_gate_c5 (e : FbEnv) :
    get_valid_page_token e = if specUsable e then e.page_token else refresh_branch e := by
  unfold get_valid_page_token specUsable
  cases hp : e.page_token with
  | none => simp
  | some ct =>
    cases hv : e.verify ct with
    | none => simp [hv]
    | some i =>
      cases hval : i.is_valid with
      | false => simp [hv, hval]
      | true =>
        by_cases h0 : i.expires_at = 0
        · simp [hv, hval, h0]
        · by_cases h1 : i.expires_at - e.now > 3600
          · have h2 : e.now + 3600 < i.expires_at := by omega
            simp [hv, hval, h0, h1, h2]
          · have h2 : ¬e.now + 3600 < i.expires_at := by omega
            simp [hv, hval, h0, h1, h2]

theorem refresh_branch_verified (e : FbEnv) (t : String)
    (h : refresh_branch e = some t) :
    ∃ i, e.verify t = some i ∧ i.is_valid = true := by
  unfold refresh_branch at h
  rcases hr : refresh_tokens_run e with ⟨b, nt⟩
  rw [hr] at h
  cases b with
  | false => simp at h
  | true =>
    cases nt with
    | none => simp at h
    | some nt =>
      replace h : (match e.verify nt with
          | some info => if info.is_valid = true then some nt else none
          | none => none) = some t := h
      cases hv : e.verify nt with
      | none => simp [hv] at h
      | some i =>
        simp only [hv] at h
        cases hval : i.is_valid with
        | false => simp [hval] at h
        | true =>
          simp only [hval, if_true] at h
          injection h with h
          subst h
          exact ⟨i, hv, hval⟩

/-- Environment for the C6 counterexample: the user token is valid but
expires in 3 days, the long-lived exchange fails, and page-token derivation
still succeeds with the old user token. -/
def exchangeFailEnv : FbEnv :=
  { page_token := some "old"
  , user_token := some "ut"
  , verify := fun s => if s = "ut" then some ⟨true, 259200⟩ else none
  , exchange := fun _ => none
  , pages := fun o => if o = some "ut" then some "pt" else none
  , now := 0 }

/-- Counterexample to C6: in `exchangeFailEnv` the exchange step of the
refresh chain is due (under 7 days remain) and fails, yet `refresh_tokens`
does not produce a terminal failure — it silently continues with the old
user credential and reports success. -/
theorem stale_token_c6_counterexample :
    (((259200 : ℤ) - (0 : ℤ) : ℤ) : ℚ) / 86400 < 7 ∧
    exchangeFailEnv.exchange "ut" = none ∧
    refresh_step1 exchangeFailEnv = some (some "ut") ∧
    refresh_tokens exchangeFailEnv = true := by
  refine ⟨by norm_num, rfl, ?_, ?_⟩
  · unfold refresh_step1 exchangeFailEnv
    norm_num
  · unfold refresh_tokens refresh_tokens_run refresh_step1 exchangeFailEnv
    norm_num

/-- C6 amended: a failing user-token verification or page-token derivation
is terminal (`refresh_tokens` returns `false`, and `get_valid_page_token`'s
refresh branch then yields `none` rather than the stale token), and any token
the refresh branch does return passes introspection as valid — but a failing
long-lived exchange alone is not terminal: the chain continues with the
existing user token (see the counterexample). -/
theorem stale_token_c6 :
    (∀ e : FbEnv, refresh_tokens e = false → refresh_branch e = none) ∧
    (∀ (e : FbEnv) (t : String), refresh_branch e = some t →
       ∃ i, e.verify t = some i ∧ i.is_valid = true) := by
  constructor
  · intro e h
    unfold refresh_tokens at h
    unfold refresh_branch
    rcases hr : refresh_tokens_run e with ⟨b, nt⟩
    rw [hr] at h
    simp only at h
    subst h
    simp
  · exact refresh_branch_verified

/-- Environment for the C6 witness: no tokens at all, so the refresh chain
fails terminally. -/
def noTokenEnv : FbEnv :=
  { page_token := none
  , user_token := none
  , verify := fun _ => none
  , exchange := fun _ => none
  , pages := fun _ => none
  , now := 0 }

/-- Witness for C6 (amended): with no credentials the refresh fails and the
refresh branch returns `none`, not a stale token. -/
theorem stale_token_c6_witness :
    refresh_tokens noTokenEnv = false ∧ refresh_branch noTokenEnv = none :=
  ⟨rfl, stale_token_c6.1 noTokenEnv rfl⟩

/-- Environment for the C7 counterexample: the current page token is valid
but expires 30 minutes (1800 s) from now; the refresh chain succeeds and
produces the distinct token "new". -/
def expiringSoonEnv : FbEnv :=
  { page_token := some "cur"
  , user_token := some "ut"
  , verify := fun s =>
      if s = "cur" then some ⟨true, 1800⟩
      else if s = "ut" then some ⟨true, 10000000⟩
      else if s = "new" then some ⟨true, 0⟩
      else none
  , exchange := fun s => some s
  , pages := fun o => if o = some "ut" then some "new" else none
  , now := 0 }

/-- Counterexample to C7: a valid token whose `expires_at` lies 30 minutes in
the future is NOT returned unchanged — `get_valid_page_token` refreshes
(the code's gate is one hour, not zero) and returns the new token. -/
theorem refresh_examples_c7_counterexample :
    expiringSoonEnv.page_token = some "cur" ∧
    expiringSoonEnv.verify "cur" = some ⟨true, 1800⟩ ∧
    expiringSoonEnv.now = 0 ∧
    get_valid_page_token expiringSoonEnv = some "new" ∧
    (some "new" : Option String) ≠ some "cur" := by
  have h1 : ¬("ut" : String) = "cur" := by decide
  have h2 : ¬("new" : String) = "cur" := by decide
  have h3 : ¬("new" : String) = "ut" := by decide
  refine ⟨rfl, by rfl, rfl, ?_, by simp⟩
  unfold get_valid_page_token refresh_branch refresh_tokens_run refresh_step1 expiringSoonEnv
  norm_num [h1, h2, h3]

/-- C7 amended: a valid token with more than one hour (not 30 minutes) left
is returned unchanged; a valid, expiring token with at most one hour left
(e.g. 30 minutes in the future, or already past) triggers the refresh chain,
and any token the refresh chain returns itself passes `verify` as valid. -/
theorem refresh_examples_c7 :
    (∀ (e : FbEnv) (t : String) (i : TokenInfo),
        e.page_token = some t → e.verify t = some i → i.is_valid = true →
        3600 < i.expires_at - e.now → get_valid_page_token e = some t) ∧
    (∀ (e : FbEnv) (t : String) (i : TokenInfo),
        e.page_token = some t → e.verify t = some i → i.is_valid = true →
        i.expires_at ≠ 0 → i.expires_at - e.now ≤ 3600 →
        get_valid_page_token e = refresh_branch e) ∧
    (∀ (e : FbEnv) (t : String), refresh_branch e = some t →
       ∃ i, e.verify t = some i ∧ i.is_valid = true) := by
  refine ⟨?_, ?_, refresh_branch_verified⟩
  · intro e t i hp hv hval hlt
    unfold get_valid_page_token
    rw [hp]
    by_cases h0 : i.expires_at = 0
    · simp [hv, hval, h0]
    · simp [hv, hval, h0, hlt]
  · intro e t i hp hv hval h0 hle
    unfold get_valid_page_token
    rw [hp]
    have h1 : ¬i.expires_at - e.now > 3600 := by omega
    simp [hv, hval, h0, h1]

/-- Environment for the C7 witness: the current page token is valid with two
hours left. -/
def freshTokenEnv : FbEnv :=
  { page_token := some "cur"
  , user_token := none
  , verify := fun s => if s = "cur" then some ⟨true, 7200⟩ else none
  , exchange := fun _ => none
  , pages := fun _ => none
  , now := 0 }

/-- Witness for C7 (amended): a valid token with 2 hours left is returned
unchanged. -/
theorem refresh_examples_c7_witness :
    get_valid_page_token freshTokenEnv = some "cur" :=
  refresh_examples_c7.1 freshTokenEnv "cur" ⟨true, 7200⟩ rfl rfl rfl (by decide)

/-! ## Read endpoints — `src/app.py` 179-320

Each endpoint is modelled over the outcomes of the store queries it runs
(`Except.error` = the query raised). A handler's result is
`Except.error m` when the exception escapes the handler unhandled, and
`Except.ok r` when the handler itself produces the HTTP response `r`. -/

/-- A JSON response body produced by a read endpoint. -/
inductive ApiResp where
  | jsonMap (rows : List LocationRow)
  | jsonActive (u5 u30 : ℤ)
  | jsonSource (rows : List SourceRow)
  | jsonPages (rows : List PageRow)
  | jsonFb (views viewers visits follows : ℤ)
  | jsonError (msg : String)
deriving DecidableEq, Repr

/-- `/api/map-data` (`src/app.py` 179-196): one query, no try/except — a
store failure propagates out of the handler. -/
def get_map_data (q : Except String (List LocationRow)) : Except String ApiResp :=
  match q with
  | .ok rows => .ok (.jsonMap rows)
  | .error m => .error m

/-- `/api/active-users` (`src/app.py` 198-216): two queries in sequence, no
try/except. -/
def get_active_users (q1 q2 : Except String ℤ) : Except String ApiResp :=
  match q1 with
  | .error m => .error m
  | .ok u5 =>
    match q2 with
    | .error m => .error m
    | .ok u30 => .ok (.jsonActive u5 u30)

/-- `/api/users-by-source` (`src/app.py` 218-235): one query, no try/except. -/
def get_users_by_source (q : Except String (List SourceRow)) : Except String ApiResp :=
  match q with
  | .ok rows => .ok (.jsonSource rows)
  | .error m => .error m

/-- `/api/views-by-page` (`src/app.py` 237-254): one query, no try/except. -/
def get_views_by_page (q : Except String (List PageRow)) : Except String ApiResp :=
  match q with
  | .ok rows => .ok (.jsonPages rows)
  | .error m => .error m

/-- `/api/facebook/daily_insights` (`src/app.py` 267-320): four queries
inside a try block; any failure is caught and answered with
`{'error': str(e)}`. -/
def get_facebook_insights (q1 q2 q3 q4 : Except String ℤ) : Except String ApiResp :=
  match q1 with
  | .error m => .ok (.jsonError m)
  | .ok views =>
    match q2 with
    | .error m => .ok (.jsonError m)
    | .ok viewers =>
      match q3 with
      | .error m => .ok (.jsonError m)
      | .ok visits =>
        match q4 with
        | .error m => .ok (.jsonError m)
        | .ok follows => .ok (.jsonFb views viewers visits follows)

/-- Counterexample to C8: on a store failure `/api/map-data` does not answer
with the JSON object `{error: message}` — the exception simply escapes the
handler. -/
theorem read_error_c8_counterexample :
    get_map_data (.error "db down") = .error "db down" ∧
    get_map_data (.error "db down") ≠ .ok (.jsonError "db down") := by
  exact ⟨rfl, by simp [get_map_data]⟩

/-- C8 amended: only `/api/facebook/daily_insights` answers a store failure
with `{error: message}`; the other four read endpoints propagate the
exception unhandled (no JSON error body). No read endpoint returns a
partially rendered response: each either yields its complete JSON body from
successfully fetched values or produces no body at all. -/
theorem read_error_c8 :
    (∀ (m : String) (q2 q3 q4 : Except String ℤ),
        get_facebook_insights (.error m) q2 q3 q4 = .ok (.jsonError m)) ∧
    (∀ (v : ℤ) (m : String) (q3 q4 : Except String ℤ),
        get_facebook_insights (.ok v) (.error m) q3 q4 = .ok (.jsonError m)) ∧
    (∀ (v w : ℤ) (m : String) (q4 : Except String ℤ),
        get_facebook_insights (.ok v) (.ok w) (.error m) q4 = .ok (.jsonError m)) ∧
    (∀ (v w x : ℤ) (m : String),
        get_facebook_insights (.ok v) (.ok w) (.ok x) (.error m) = .ok (.jsonError m)) ∧
    (∀ m : String, get_map_data (.error m) = .error m) ∧
    (∀ (m : String) (q2 : Except String ℤ),
        get_active_users (.error m) q2 = .error m) ∧
    (∀ (u5 : ℤ) (m : String), get_active_users (.ok u5) (.error m) = .error m) ∧
    (∀ m : String, get_users_by_source (.error m) = .error m) ∧
    (∀ m : String, get_views_by_page (.error m) = .error m) :=
  ⟨fun _ _ _ _ => rfl, fun _ _ _ _ => rfl, fun _ _ _ _ => rfl, fun _ _ _ _ => rfl,
   fun _ => rfl, fun _ _ => rfl, fun _ _ => rfl, fun _ => rfl, fun _ => rfl⟩
